import Mathlib

/-!
# Verification of the henix deployment tool

A shallow embedding of the henix remote-deployment program (Rust sources
`src/lib.rs`, `src/deploy.rs`, `src/ssh.rs`, `src/util.rs`, `src/nix.rs`,
`src/bin/henix.rs`) together with theorems settling the behavioural claims
about it.

Modelling conventions:
* Byte streams are `List Char`; line splitting mirrors
  `tokio::io::AsyncBufReadExt::lines` / `next_line` (newline-delimited, a
  trailing segment without a newline is still produced, an empty stream
  produces no line).
* The race of the two output streams inside `tokio::select!` is made explicit
  through a schedule (`List Bool`): when both streams still have a line
  available, the head of the schedule decides which branch wins; theorems
  quantify over all schedules.
* Remote and local child processes are external collaborators: an
  environment `Env` maps each issued command (`Cmd`) to its result
  (invocation error, or an exit status plus captured output).  Each embedded
  function returns the ordered list of commands it issued (its effect trace)
  alongside its `Result` value, mirroring the `anyhow::Result` control flow
  of the source, including the `.context(...)` strings.
* `NodeCfg` carries the `rollback_on_failure` field read by
  `deploy::process_node` (the struct declaration in `lib.rs` omits it, but
  `deploy.rs` line 163 reads it; the deserialized node configuration is the
  authority here, as in `main.rs`).
-/

namespace Henix

/-- `std::process::ExitStatus`.  `code = none` models termination by signal,
`code = some n` a normal exit with code `n`. -/
structure ExitStatus where
  code : Option Int
deriving DecidableEq

/-- `ExitStatus::success()`: normal exit with code zero. -/
def ExitStatus.success (s : ExitStatus) : Bool := s.code = some 0

/-- Line splitting as performed by `AsyncBufReadExt::lines` (`next_line` in
`util.rs` / `ssh.rs`): lines are delimited by `'\n'` (the delimiter is not
part of the line), a final segment without a trailing newline is still
produced, and an exhausted stream produces nothing. -/
def splitLines : List Char → List (List Char)
  | [] => []
  | c :: rest =>
    if c = '\n' then [] :: splitLines rest
    else
      match splitLines rest with
      | [] => [[c]]
      | l :: ls => (c :: l) :: ls

/-- A stream is terminated when it is empty or its last byte is a newline:
every line in it is complete. -/
def terminated : List Char → Bool
  | [] => true
  | [c] => c = '\n'
  | _ :: c :: rest => terminated (c :: rest)

/-- A log entry produced by the `tokio::select!` loop of
`proxy_output_to_logging`: `info!("stdout: {}", line)` or
`info!("stderr: {}", line)`. -/
inductive MuxEntry where
  | out (line : List Char)
  | err (line : List Char)
deriving DecidableEq

def MuxEntry.outLine? : MuxEntry → Option (List Char)
  | .out l => some l
  | .err _ => none

def MuxEntry.errLine? : MuxEntry → Option (List Char)
  | .out _ => none
  | .err l => some l

/-- The `loop { tokio::select! { ... } }` of `util.rs` / `ssh.rs` lines 49-62
resp. 69-82, after line splitting.  Each iteration consumes the next line of
whichever stream wins the race; when both streams have a line pending, the
head of the schedule decides the winner (the schedule abstracts arrival
timing).  A stream at end-of-file no longer competes; the loop breaks (`else`
branch) once both are exhausted. -/
def muxLoop : List Bool → List (List Char) → List (List Char) → List MuxEntry
  | _, [], [] => []
  | sch, o :: os, [] => .out o :: muxLoop sch os []
  | sch, [], e :: es => .err e :: muxLoop sch [] es
  | [], o :: os, e :: es => .out o :: muxLoop [] os (e :: es)
  | b :: sch, o :: os, e :: es =>
    if b then .out o :: muxLoop sch os (e :: es)
    else .err e :: muxLoop sch (o :: os) es
termination_by _ os es => os.length + es.length

/-- A spawned child process, as `proxy_output_to_logging` sees it after a
successful `spawn()`: the two capture handles (`child.stdout.take()` /
`child.stderr.take()` may each be unavailable), and the outcome of
`child.wait()` (`Ok(status)` or a wait error wrapped by `.context(...)`). -/
structure Child where
  stdoutHandle : Option (List Char)
  stderrHandle : Option (List Char)
  waitResult : Except String ExitStatus

/-- One entry sent to the tracing logger by `proxy_output_to_logging`. -/
inductive LogEntry where
  | line (e : MuxEntry)
  | warning (msg : String)
deriving DecidableEq

def LogEntry.outLine? : LogEntry → Option (List Char)
  | .line m => m.outLine?
  | .warning _ => none

def LogEntry.errLine? : LogEntry → Option (List Char)
  | .line m => m.errLine?
  | .warning _ => none

/-- `proxy_output_to_logging` from `util.rs` lines 15-69 (identical logic in
`ssh.rs` lines 35-89): if either capture handle is unavailable it logs a
warning and immediately waits for the child (no multiplexing at all);
otherwise it drains both streams through the select loop and then waits.
Returns the produced log alongside the function's `Result<ExitStatus>`. -/
def proxy_output_to_logging (sch : List Bool) (child : Child) :
    List LogEntry × Except String ExitStatus :=
  match child.stdoutHandle with
  | none =>
    ([.warning "Could not take child stdout, stdout will not be logged"],
     child.waitResult)
  | some o =>
    match child.stderrHandle with
    | none =>
      ([.warning "Could not take child stderr, stderr will not be logged"],
       child.waitResult)
    | some e =>
      ((muxLoop sch (splitLines o) (splitLines e)).map .line, child.waitResult)

/-- A command issued by the deployment code, either on the remote session
(`remote.command(...)` in `deploy.rs`) or locally (`rsync` via
`tokio::process::Command`, `nix-hash` in `nix.rs`). -/
inductive Cmd where
  | mv (src dst : String)
  | rm (path : String)
  | rsync (args : List String)
  | nixosRebuild (args : List String)
  | nixHash (dir : String)
deriving DecidableEq

/-- What executing a command yields: either the invocation itself fails
(the `.context(...)` branch after `.status()` / `.output()` / spawn), or the
command ran and exited with a status and captured stdout/stderr bytes. -/
inductive CmdResult where
  | invokeError (msg : String)
  | done (status : ExitStatus) (stdout stderr : List Char)

/-- The external world of one node run: the outcome of
`ssh::connect_to_node` and the result of each command executed through the
session (or locally).  Each command in the flows below is issued at most
once, so a function of the command suffices. -/
structure Env where
  connectResult : Except String Unit
  exec : Cmd → CmdResult

/-- `NodeCfg` (`lib.rs` lines 20-25, plus the `rollback_on_failure` field
read by `deploy.rs` line 163). -/
structure NodeCfg where
  location : String
  ssh_port : Option Nat
  rollback_on_failure : Bool

/-- `DeployOpts` (`lib.rs` lines 43-57). -/
structure DeployOpts where
  boot : Bool
  targets : Option (List String)
  show_trace : Bool

/-- `deploy::rollback` (`deploy.rs` lines 8-40): `rm -r /etc/nixos`, then
`mv /etc/nixos.old /etc/nixos`; each step errors out on invocation failure
or non-success exit.  Returns the issued commands and the `Result`. -/
def rollback (env : Env) : List Cmd × Except String Unit :=
  let rmCmd := Cmd.rm "/etc/nixos"
  match env.exec rmCmd with
  | .invokeError m =>
    ([rmCmd], .error ("Could not invoke rm to remove new /etc/nixos: " ++ m))
  | .done st _ _ =>
    if st.success then
      let mvCmd := Cmd.mv "/etc/nixos.old" "/etc/nixos"
      match env.exec mvCmd with
      | .invokeError m =>
        ([rmCmd, mvCmd],
         .error ("Could not invoke mv to restore /etc/nixos.old to /etc/nixos: " ++ m))
      | .done st2 _ err2 =>
        if st2.success then ([rmCmd, mvCmd], .ok ())
        else
          ([rmCmd, mvCmd],
           .error ("Could not move /etc/nixos.old back to /etc/nixos (mv stderr: "
             ++ String.mk err2 ++ "), you will have to do it manually"))
    else
      ([rmCmd],
       .error "Could not remove new /etc/nixos, you will have to do it manually")

/-- The argument vector of the `rsync` invocation in `copy_config`
(`deploy.rs` lines 72-80): exclude `.git/`, archive mode, `.rsync-filter`
support, mirror deletions, over ssh, from the local config directory (with a
trailing slash) to the fixed remote destination `/etc/nixos`. -/
def rsyncArgs (cfg_dir location : String) : List String :=
  ["--exclude=.git/", "-a", "-F", "--delete", "-e", "ssh",
   cfg_dir ++ "/", "root@" ++ location ++ ":/etc/nixos"]

/-- `deploy::copy_config` (`deploy.rs` lines 42-97): first move the remote
`/etc/nixos` to `/etc/nixos.old`; only if that succeeded, rsync the local
config directory to `root@location:/etc/nixos`. -/
def copy_config (env : Env) (node_location : String) (cfg_dir : String) :
    List Cmd × Except String Unit :=
  let mvCmd := Cmd.mv "/etc/nixos" "/etc/nixos.old"
  match env.exec mvCmd with
  | .invokeError m =>
    ([mvCmd], .error ("Could not invoke mv to move old /etc/nixos out of the way: " ++ m))
  | .done st _ _ =>
    if st.success then
      let rsCmd := Cmd.rsync (rsyncArgs cfg_dir node_location)
      match env.exec rsCmd with
      | .invokeError m =>
        ([mvCmd, rsCmd], .error ("Could not execute rsync to copy files: " ++ m))
      | .done st2 _ err2 =>
        if st2.success then ([mvCmd, rsCmd], .ok ())
        else
          ([mvCmd, rsCmd],
           .error ("Could not rsync files to location `" ++ node_location
             ++ "`, with stderr of:\n" ++ String.mk err2))
    else
      ([mvCmd], .error "Could not move old /etc/nixos out of the way, aborting")

/-- The argument vector passed to `nixos-rebuild` by `build_config`
(`deploy.rs` lines 106-111): `boot` or `switch` according to
`dep_opts.boot`, then `--flake /etc/nixos#<node name>`.  Note: nothing here
reads `dep_opts.show_trace`. -/
def rebuildArgs (dep_opts : DeployOpts) (node_name : String) : List String :=
  [(if dep_opts.boot then "boot" else "switch"), "--flake", "/etc/nixos#" ++ node_name]

/-- `deploy::build_config` (`deploy.rs` lines 99-120): run `nixos-rebuild`
on the remote (streamed through `ssh::proxy_output_to_logging`); error on
execution failure or non-success exit. -/
def build_config (env : Env) (dep_opts : DeployOpts) (node_name : String) :
    List Cmd × Except String Unit :=
  let cmd := Cmd.nixosRebuild (rebuildArgs dep_opts node_name)
  match env.exec cmd with
  | .invokeError m => ([cmd], .error ("Rebuild execution failed: " ++ m))
  | .done st _ _ =>
    if st.success then ([cmd], .ok ()) else ([cmd], .error "Rebuild failed")

/-- `deploy::process_node_raw` (`deploy.rs` lines 122-148): copy, then
build, each wrapped in a context; no other steps are performed (the
historical rollback-inside-raw variant is commented out in the source). -/
def process_node_raw (env : Env) (dep_opts : DeployOpts) (name : String)
    (node_cfg : NodeCfg) (cfg_dir : String) : List Cmd × Except String Unit :=
  let c := copy_config env node_cfg.location cfg_dir
  match c.2 with
  | .error e => (c.1, .error ("Could not copy config: " ++ e))
  | .ok _ =>
    let b := build_config env dep_opts name
    match b.2 with
    | .error e => (c.1 ++ b.1, .error ("Could not build config: " ++ e))
    | .ok _ => (c.1 ++ b.1, .ok ())

/-- The terminal state a node run reaches, naming the control-flow paths of
`deploy::process_node` with the spec's `DeploymentResult` taxonomy. -/
inductive DeploymentResult where
  | Succeeded
  | FailedWithRollback (orig : String)
  | FailedNoRollback (orig : String)
  | ConnectionFailed (msg : String)
deriving DecidableEq

/-- An `error!(...)` record emitted by `deploy::process_node`. -/
inductive DeployLogEntry where
  | errorLog (msg : String)
deriving DecidableEq

/-- `deploy::process_node` (`deploy.rs` lines 152-169): connect; on
connection error log it and stop.  Otherwise run `process_node_raw`; on its
error log it and, exactly when `node_cfg.rollback_on_failure` is set, invoke
`rollback` once, logging a rollback failure as an additional record.
Returns the issued commands, the error log, and the terminal result. -/
def process_node (env : Env) (dep_opts : DeployOpts) (name : String)
    (node_cfg : NodeCfg) (cfg_dir : String) :
    List Cmd × List DeployLogEntry × DeploymentResult :=
  match env.connectResult with
  | .error e =>
    let msg := "Could not connect to node with name `" ++ name ++ "`: " ++ e
    ([], [.errorLog msg], .ConnectionFailed msg)
  | .ok _ =>
    let raw := process_node_raw env dep_opts name node_cfg cfg_dir
    match raw.2 with
    | .ok _ => (raw.1, [], .Succeeded)
    | .error e =>
      if node_cfg.rollback_on_failure then
        let rb := rollback env
        match rb.2 with
        | .ok _ => (raw.1 ++ rb.1, [.errorLog e], .FailedWithRollback e)
        | .error re =>
          (raw.1 ++ rb.1,
           [.errorLog e, .errorLog ("Error while rolling back: \n" ++ re)],
           .FailedWithRollback e)
      else (raw.1, [.errorLog e], .FailedNoRollback e)

/-- The nodes let through the target filter of `run` (`lib.rs` lines
90-94): all of them when `targets` is absent, else those whose name occurs
in `targets`. -/
def selectedNodes (nodes : List (String × NodeCfg)) (dep_opts : DeployOpts) :
    List (String × NodeCfg) :=
  nodes.filter (fun p =>
    match dep_opts.targets with
    | none => true
    | some ts => ts.contains p.1)

/-- The validation loop of `run` (`lib.rs` lines 75-81): the first name in
`targets` that is absent from the node map, if any. -/
def missingTarget (nodes : List (String × NodeCfg)) (dep_opts : DeployOpts) :
    Option String :=
  match dep_opts.targets with
  | none => none
  | some ts => ts.find? (fun t => (nodes.lookup t).isNone)

/-- `run` (`lib.rs` lines 59-102), after the deploy configuration has been
resolved (`nix::eval` is the external config-resolution collaborator; its
node map is a parameter here).  Validate all targets first, failing the
whole run with no node processed; then process every selected node, each
against its own environment, and return `Ok(())`.  The first component
records each processed node with its commands, log and terminal result. -/
def run (envs : String → Env) (nodes : List (String × NodeCfg))
    (dep_opts : DeployOpts) (cfg_dir : String) :
    List (String × List Cmd × List DeployLogEntry × DeploymentResult)
      × Except String Unit :=
  match missingTarget nodes dep_opts with
  | some t =>
    ([], .error ("Node name `" ++ t
      ++ "` (specified using --target) does not exist. Did you remember to `git add` its configuration?"))
  | none =>
    ((selectedNodes nodes dep_opts).map
      (fun p => (p.1, process_node (envs p.1) dep_opts p.1 p.2 cfg_dir)),
     .ok ())

/-- `main` (`src/bin/henix.rs` lines 21-25): exit code 1 when `run` returns
an error, 0 otherwise. -/
def mainExitCode (r : Except String Unit) : Nat :=
  match r with
  | .ok _ => 0
  | .error _ => 1

/-- Number of rollback invocations recorded in a command trace.  `rollback`
unconditionally issues `rm -r /etc/nixos` first and is the only code that
issues an `rm`, so each invocation contributes exactly one such command. -/
def rollbackInvocations (cmds : List Cmd) : Nat :=
  cmds.count (Cmd.rm "/etc/nixos")

/-- Number of content-hash computations (`nix::hash`, i.e. `nix-hash`)
recorded in a command trace. -/
def hashInvocations (cmds : List Cmd) : Nat :=
  cmds.countP (fun c => match c with | .nixHash _ => true | _ => false)

/-- Did the `mv /etc/nixos /etc/nixos.old` issued by `copy_config` exit
successfully in this environment? -/
def mvAsideSuccess (env : Env) : Bool :=
  match env.exec (Cmd.mv "/etc/nixos" "/etc/nixos.old") with
  | .done st _ _ => st.success
  | .invokeError _ => false

/-- Did the `rm -r /etc/nixos` issued by `rollback` exit successfully in
this environment? -/
def rmNewSuccess (env : Env) : Bool :=
  match env.exec (Cmd.rm "/etc/nixos") with
  | .done st _ _ => st.success
  | .invokeError _ => false

/-! ### Concrete fixtures used by witnesses and counterexamples -/

/-- An environment where connection and every command succeed. -/
def envAllOk : Env :=
  { connectResult := .ok ()
    exec := fun _ => .done ⟨some 0⟩ [] [] }

/-- An environment where everything succeeds except `nixos-rebuild`, which
exits 1: a forced build failure. -/
def envBuildFail : Env :=
  { connectResult := .ok ()
    exec := fun c => match c with
      | .nixosRebuild _ => .done ⟨some 1⟩ [] []
      | _ => .done ⟨some 0⟩ [] [] }

/-- An environment where the build fails and the subsequent rollback also
fails (its `rm` exits 1). -/
def envBuildAndRollbackFail : Env :=
  { connectResult := .ok ()
    exec := fun c => match c with
      | .nixosRebuild _ => .done ⟨some 1⟩ [] []
      | .rm _ => .done ⟨some 1⟩ [] []
      | _ => .done ⟨some 0⟩ [] [] }

/-- An environment where establishing the SSH session fails. -/
def envConnFail : Env :=
  { connectResult := .error "ssh: connection refused"
    exec := fun _ => .done ⟨some 0⟩ [] [] }

/-- An environment where every `mv` exits 1 (so `copy_config` cannot move
the old `/etc/nixos` aside). -/
def envMvFail : Env :=
  { connectResult := .ok ()
    exec := fun c => match c with
      | .mv _ _ => .done ⟨some 1⟩ [] []
      | _ => .done ⟨some 0⟩ [] [] }

/-- Deployment options with no flag set and no target filter. -/
def optsPlain : DeployOpts := { boot := false, targets := none, show_trace := false }

/-- A node on `host1` with rollback disabled. -/
def cfgHost1 : NodeCfg :=
  { location := "host1", ssh_port := none, rollback_on_failure := false }

/-- A node on `host1` with rollback enabled. -/
def cfgHost1Rollback : NodeCfg :=
  { location := "host1", ssh_port := none, rollback_on_failure := true }

/-- Deployment options selecting the (possibly nonexistent) target `beta`. -/
def optsTargetBeta : DeployOpts :=
  { boot := false, targets := some ["beta"], show_trace := false }

/-- A node map with the single node `alpha`. -/
def nodesOne : List (String × NodeCfg) := [("alpha", cfgHost1)]

/-- A node map with two nodes, `alpha` and `beta`. -/
def nodesTwo : List (String × NodeCfg) := [("alpha", cfgHost1), ("beta", cfgHost1)]

/-- Per-node environments in which `alpha`'s build fails while `beta`'s
whole run succeeds. -/
def envsMixed : String → Env :=
  fun n => if n = "alpha" then envBuildFail else envAllOk

/-! ## Lemmas about line splitting -/

theorem splitLines_cons_newline (rest : List Char) :
    splitLines ('\n' :: rest) = [] :: splitLines rest := by
  simp [splitLines]

theorem splitLines_cons_ne (c : Char) (rest : List Char) (hc : ¬ c = '\n') :
    splitLines (c :: rest) =
      (c :: (splitLines rest).headD []) :: (splitLines rest).tail := by
  simp only [splitLines, if_neg hc]
  cases h : splitLines rest <;> simp

theorem splitLines_ne_nil (c : Char) (rest : List Char) :
    splitLines (c :: rest) ≠ [] := by
  by_cases hc : c = '\n'
  · subst hc; rw [splitLines_cons_newline]; simp
  · rw [splitLines_cons_ne c rest hc]; simp

theorem splitLines_eq_nil_iff (s : List Char) : splitLines s = [] ↔ s = [] := by
  cases s with
  | nil => simp [splitLines]
  | cons c rest => simp [splitLines_ne_nil]

/-- A nonempty stream holding no newline yields exactly one line: itself.
This is the "partial final line is still emitted" behaviour of `next_line`. -/
theorem splitLines_no_newline (p : List Char) (hp : p ≠ []) (hnl : '\n' ∉ p) :
    splitLines p = [p] := by
  induction p with
  | nil => exact absurd rfl hp
  | cons c rest ih =>
    have hc : ¬ c = '\n' := fun h => hnl (h ▸ List.mem_cons_self c rest)
    simp only [splitLines, if_neg hc]
    cases rest with
    | nil => simp [splitLines]
    | cons d r =>
      have : splitLines (d :: r) = [d :: r] := by
        refine ih (by simp) (fun h => hnl (List.mem_cons_of_mem _ h))
      rw [this]

/-- On a terminated stream, the number of lines produced is exactly the
number of newline delimiters. -/
theorem length_splitLines_of_terminated (s : List Char) (h : terminated s = true) :
    (splitLines s).length = s.count '\n' := by
  induction s with
  | nil => simp [splitLines]
  | cons c rest ih =>
    cases rest with
    | nil =>
      have hc : c = '\n' := by simpa [terminated] using h
      subst hc
      rw [splitLines_cons_newline]
      simp [splitLines, List.count_cons]
    | cons d r =>
      have ht : terminated (d :: r) = true := by simpa [terminated] using h
      by_cases hc : c = '\n'
      · subst hc
        rw [splitLines_cons_newline]
        simp [ih ht, List.count_cons]
      · rw [splitLines_cons_ne c _ hc]
        have hne := splitLines_ne_nil d r
        rcases hsp : splitLines (d :: r) with _ | ⟨l, ls⟩
        · exact absurd hsp hne
        · have hlen := ih ht
          rw [hsp] at hlen
          simp only [List.length_cons] at hlen
          simp only [List.headD_cons, List.tail_cons, List.length_cons]
          rw [List.count_cons]
          simp [hc, hlen]

/-- Appending a newline-free nonempty tail to a terminated stream appends
exactly one more (partial) line, after all the complete lines. -/
theorem splitLines_append_trailing (s p : List Char) (hs : terminated s = true)
    (hp : p ≠ []) (hnl : '\n' ∉ p) :
    splitLines (s ++ p) = splitLines s ++ [p] := by
  induction s with
  | nil => simpa using splitLines_no_newline p hp hnl
  | cons c rest ih =>
    cases rest with
    | nil =>
      have hc : c = '\n' := by simpa [terminated] using hs
      subst hc
      simp only [List.cons_append, List.nil_append]
      rw [splitLines_cons_newline, splitLines_cons_newline]
      simp [splitLines, splitLines_no_newline p hp hnl]
    | cons d r =>
      have ht : terminated (d :: r) = true := by simpa [terminated] using hs
      have ihr := ih ht
      simp only [List.cons_append] at ihr ⊢
      by_cases hc : c = '\n'
      · subst hc
        rw [splitLines_cons_newline, splitLines_cons_newline, ihr]
        simp
      · rw [splitLines_cons_ne c _ hc, splitLines_cons_ne c _ hc, ihr]
        have hne := splitLines_ne_nil d r
        rcases hsp : splitLines (d :: r) with _ | ⟨l, ls⟩
        · exact absurd hsp hne
        · simp [hsp]

/-! ## Lemmas about the select loop -/

/-- Every line of both streams produces exactly one log entry. -/
theorem muxLoop_length (sch : List Bool) (os es : List (List Char)) :
    (muxLoop sch os es).length = os.length + es.length := by
  induction sch, os, es using muxLoop.induct <;>
    simp_all [muxLoop] <;> omega

/-- The stdout lines appear in the merged log in their original order,
none lost, regardless of the schedule. -/
theorem muxLoop_out (sch : List Bool) (os es : List (List Char)) :
    (muxLoop sch os es).filterMap MuxEntry.outLine? = os := by
  induction sch, os, es using muxLoop.induct <;>
    simp_all [muxLoop, List.filterMap_cons, MuxEntry.outLine?]

/-- The stderr lines appear in the merged log in their original order,
none lost, regardless of the schedule. -/
theorem muxLoop_err (sch : List Bool) (os es : List (List Char)) :
    (muxLoop sch os es).filterMap MuxEntry.errLine? = es := by
  induction sch, os, es using muxLoop.induct <;>
    simp_all [muxLoop, List.filterMap_cons, MuxEntry.errLine?]

/-! ## Lemmas about the deployment step traces -/

/-- `copy_config` issues the saving `mv` first and then at most the `rsync`. -/
theorem copy_config_trace (env : Env) (loc dir : String) :
    (copy_config env loc dir).1 = [Cmd.mv "/etc/nixos" "/etc/nixos.old"] ∨
    (copy_config env loc dir).1 =
      [Cmd.mv "/etc/nixos" "/etc/nixos.old", Cmd.rsync (rsyncArgs dir loc)] := by
  simp only [copy_config]
  rcases env.exec (Cmd.mv "/etc/nixos" "/etc/nixos.old") with m | ⟨st, so, se⟩
  · left; rfl
  · by_cases hs : st.success
    · simp only [hs, if_true]
      rcases env.exec (Cmd.rsync (rsyncArgs dir loc)) with m2 | ⟨st2, so2, se2⟩
      · right; rfl
      · by_cases hs2 : st2.success <;> simp [hs2]
    · simp [hs]

/-- When the saving `mv` of `copy_config` succeeds, the `rsync` transfer is
issued right after it. -/
theorem copy_config_trace_of_mv_success (env : Env) (loc dir : String)
    (h : mvAsideSuccess env = true) :
    (copy_config env loc dir).1 =
      [Cmd.mv "/etc/nixos" "/etc/nixos.old", Cmd.rsync (rsyncArgs dir loc)] := by
  simp only [copy_config]
  simp only [mvAsideSuccess] at h
  split <;> rename_i heq <;> rw [heq] at h <;> simp at h
  rw [if_pos h]
  split
  · rfl
  · split <;> rfl

/-- When the saving `mv` of `copy_config` fails, no transfer is attempted
and the step reports an error. -/
theorem copy_config_of_mv_fail (env : Env) (loc dir : String)
    (h : mvAsideSuccess env = false) :
    (copy_config env loc dir).1 = [Cmd.mv "/etc/nixos" "/etc/nixos.old"] ∧
    ∃ m, (copy_config env loc dir).2 = .error m := by
  simp only [copy_config]
  simp only [mvAsideSuccess] at h
  split <;> rename_i heq <;> rw [heq] at h
  · exact ⟨rfl, _, rfl⟩
  · simp at h
    rw [if_neg (by simp [h])]
    exact ⟨rfl, _, rfl⟩

/-- `build_config` issues exactly the one `nixos-rebuild` command. -/
theorem build_config_trace (env : Env) (dep_opts : DeployOpts) (name : String) :
    (build_config env dep_opts name).1 = [Cmd.nixosRebuild (rebuildArgs dep_opts name)] := by
  simp only [build_config]
  rcases env.exec (Cmd.nixosRebuild (rebuildArgs dep_opts name)) with m | ⟨st, so, se⟩
  · rfl
  · by_cases hs : st.success <;> simp [hs]

/-- `rollback` issues the `rm` first and then at most the restoring `mv`. -/
theorem rollback_trace (env : Env) :
    (rollback env).1 = [Cmd.rm "/etc/nixos"] ∨
    (rollback env).1 = [Cmd.rm "/etc/nixos", Cmd.mv "/etc/nixos.old" "/etc/nixos"] := by
  simp only [rollback]
  rcases env.exec (Cmd.rm "/etc/nixos") with m | ⟨st, so, se⟩
  · left; rfl
  · by_cases hs : st.success
    · simp only [hs, if_true]
      rcases env.exec (Cmd.mv "/etc/nixos.old" "/etc/nixos") with m2 | ⟨st2, so2, se2⟩
      · right; rfl
      · by_cases hs2 : st2.success <;> simp [hs2]
    · simp [hs]

/-- When its `rm` succeeds, `rollback` restores the saved `/etc/nixos.old`
back to `/etc/nixos`. -/
theorem rollback_trace_of_rm_success (env : Env) (h : rmNewSuccess env = true) :
    (rollback env).1 = [Cmd.rm "/etc/nixos", Cmd.mv "/etc/nixos.old" "/etc/nixos"] := by
  simp only [rollback]
  simp only [rmNewSuccess] at h
  split <;> rename_i heq <;> rw [heq] at h <;> simp at h
  rw [if_pos h]
  split
  · rfl
  · split <;> rfl

/-- The trace of `process_node_raw` is the copy trace, possibly followed
by the build command. -/
theorem process_node_raw_trace (env : Env) (dep_opts : DeployOpts) (name : String)
    (node_cfg : NodeCfg) (cfg_dir : String) :
    (process_node_raw env dep_opts name node_cfg cfg_dir).1
        = (copy_config env node_cfg.location cfg_dir).1 ∨
    (process_node_raw env dep_opts name node_cfg cfg_dir).1
        = (copy_config env node_cfg.location cfg_dir).1
            ++ [Cmd.nixosRebuild (rebuildArgs dep_opts name)] := by
  simp only [process_node_raw]
  rcases h : (copy_config env node_cfg.location cfg_dir).2 with e | u
  · left; rfl
  · right
    rcases h2 : (build_config env dep_opts name).2 with e2 | u2 <;>
      simp [← build_config_trace env dep_opts name]

/-- The trace of `process_node` is empty (connection failure), the raw
trace, or the raw trace followed by the rollback trace. -/
theorem process_node_trace (env : Env) (dep_opts : DeployOpts) (name : String)
    (node_cfg : NodeCfg) (cfg_dir : String) :
    (process_node env dep_opts name node_cfg cfg_dir).1 = [] ∨
    (process_node env dep_opts name node_cfg cfg_dir).1
        = (process_node_raw env dep_opts name node_cfg cfg_dir).1 ∨
    (process_node env dep_opts name node_cfg cfg_dir).1
        = (process_node_raw env dep_opts name node_cfg cfg_dir).1 ++ (rollback env).1 := by
  simp only [process_node]
  rcases env.connectResult with e | u
  · left; rfl
  · rcases h : (process_node_raw env dep_opts name node_cfg cfg_dir).2 with e | u2
    · by_cases hf : node_cfg.rollback_on_failure
      · simp only [hf, if_true]
        rcases h2 : (rollback env).2 with e2 | u3 <;> simp
      · simp [hf]
    · simp

/-- Every command a node run ever issues is one of the five fixed shapes:
the saving `mv`, the `rsync` to the fixed destination, the `nixos-rebuild`,
and the two rollback commands.  In particular there is no `nix-hash`. -/
theorem process_node_trace_shape (env : Env) (dep_opts : DeployOpts) (name : String)
    (node_cfg : NodeCfg) (cfg_dir : String) (c : Cmd)
    (hc : c ∈ (process_node env dep_opts name node_cfg cfg_dir).1) :
    c = Cmd.mv "/etc/nixos" "/etc/nixos.old" ∨
    c = Cmd.rsync (rsyncArgs cfg_dir node_cfg.location) ∨
    c = Cmd.nixosRebuild (rebuildArgs dep_opts name) ∨
    c = Cmd.rm "/etc/nixos" ∨
    c = Cmd.mv "/etc/nixos.old" "/etc/nixos" := by
  have hcopy := copy_config_trace env node_cfg.location cfg_dir
  have hraw := process_node_raw_trace env dep_opts name node_cfg cfg_dir
  have hrb := rollback_trace env
  have hmem_raw :
      c ∈ (process_node_raw env dep_opts name node_cfg cfg_dir).1 →
      c = Cmd.mv "/etc/nixos" "/etc/nixos.old" ∨
      c = Cmd.rsync (rsyncArgs cfg_dir node_cfg.location) ∨
      c = Cmd.nixosRebuild (rebuildArgs dep_opts name) ∨
      c = Cmd.rm "/etc/nixos" ∨
      c = Cmd.mv "/etc/nixos.old" "/etc/nixos" := by
    intro hm
    rcases hraw with h | h <;> rw [h] at hm <;>
      rcases hcopy with h2 | h2 <;> rw [h2] at hm <;>
        simp [List.mem_append] at hm <;> tauto
  rcases process_node_trace env dep_opts name node_cfg cfg_dir with h | h | h
  · rw [h] at hc; cases hc
  · rw [h] at hc; exact hmem_raw hc
  · rw [h] at hc
    rcases List.mem_append.mp hc with hm | hm
    · exact hmem_raw hm
    · rcases hrb with h2 | h2 <;> rw [h2] at hm <;> simp at hm <;> tauto

/-- A raw run (copy + build) never issues a rollback `rm`. -/
theorem rollbackInvocations_raw (env : Env) (dep_opts : DeployOpts) (name : String)
    (node_cfg : NodeCfg) (cfg_dir : String) :
    rollbackInvocations (process_node_raw env dep_opts name node_cfg cfg_dir).1 = 0 := by
  rcases process_node_raw_trace env dep_opts name node_cfg cfg_dir with h | h <;> rw [h] <;>
    rcases copy_config_trace env node_cfg.location cfg_dir with h2 | h2 <;> rw [h2] <;>
      simp [rollbackInvocations, List.count_cons, List.count_append]

/-- Each call to `rollback` records exactly one rollback invocation. -/
theorem rollbackInvocations_rollback (env : Env) :
    rollbackInvocations (rollback env).1 = 1 := by
  rcases rollback_trace env with h | h <;> rw [h] <;>
    simp [rollbackInvocations, List.count_cons]

/-! ## Claims -/

/-- C1, counterexample (claim as stated is false on the code): in a fully
successful node run the state machine computes no content hash at all
(`nix::hash` is never invoked), and the copy step transfers to the fixed
remote path `root@host1:/etc/nixos` — the same destination for the two
distinct local configurations `/cfg-a` and `/cfg-b`, so configurations do
collide on the remote path rather than being hash-addressed. -/
theorem C1_counterexample :
    hashInvocations (process_node envAllOk optsPlain "node1" cfgHost1 "/cfg-a").1 = 0 ∧
    Cmd.rsync (rsyncArgs "/cfg-a" "host1")
        ∈ (process_node envAllOk optsPlain "node1" cfgHost1 "/cfg-a").1 ∧
    (rsyncArgs "/cfg-a" "host1").getLast? = some "root@host1:/etc/nixos" ∧
    (rsyncArgs "/cfg-b" "host1").getLast? = some "root@host1:/etc/nixos" := by
  refine ⟨?_, ?_, rfl, rfl⟩ <;> decide

/-- C1, amended: for every node run, no content hash of the local config
directory is ever computed, and every transfer the copy step performs goes
to the fixed remote path `root@<location>:/etc/nixos`, independent of the
configuration's content. -/
theorem C1_no_hash_fixed_remote_path (env : Env) (dep_opts : DeployOpts)
    (name : String) (node_cfg : NodeCfg) (cfg_dir : String) :
    hashInvocations (process_node env dep_opts name node_cfg cfg_dir).1 = 0 ∧
    ∀ args, Cmd.rsync args ∈ (process_node env dep_opts name node_cfg cfg_dir).1 →
      args = rsyncArgs cfg_dir node_cfg.location := by
  constructor
  · apply List.countP_eq_zero.mpr
    intro c hc
    rcases process_node_trace_shape env dep_opts name node_cfg cfg_dir c hc with
      h | h | h | h | h <;> subst h <;> simp
  · intro args hmem
    rcases process_node_trace_shape env dep_opts name node_cfg cfg_dir
      (Cmd.rsync args) hmem with h | h | h | h | h <;> simp_all

/-- C1, witness for the amended claim at a concrete successful run. -/
theorem C1_witness :
    hashInvocations (process_node envAllOk optsPlain "node1" cfgHost1 "/cfg-a").1 = 0 ∧
    rsyncArgs "/cfg-a" "host1" = rsyncArgs "/cfg-a" cfgHost1.location :=
  ⟨(C1_no_hash_fixed_remote_path envAllOk optsPlain "node1" cfgHost1 "/cfg-a").1,
   (C1_no_hash_fixed_remote_path envAllOk optsPlain "node1" cfgHost1 "/cfg-a").2
     (rsyncArgs "/cfg-a" "host1") (by decide)⟩

/-- C2: when a node's copy-or-build phase fails after a successful
connection, rollback is gated exactly by `rollback_on_failure`: with the
flag false the run ends `FailedNoRollback` and rollback is never invoked;
with the flag true it ends `FailedWithRollback` and rollback is invoked
exactly once. -/
theorem C2_rollback_gating (env : Env) (dep_opts : DeployOpts) (name : String)
    (node_cfg : NodeCfg) (cfg_dir : String) (e : String)
    (hc : env.connectResult = .ok ())
    (hf : (process_node_raw env dep_opts name node_cfg cfg_dir).2 = .error e) :
    (node_cfg.rollback_on_failure = false →
      (process_node env dep_opts name node_cfg cfg_dir).2.2 = .FailedNoRollback e ∧
      rollbackInvocations (process_node env dep_opts name node_cfg cfg_dir).1 = 0) ∧
    (node_cfg.rollback_on_failure = true →
      (process_node env dep_opts name node_cfg cfg_dir).2.2 = .FailedWithRollback e ∧
      rollbackInvocations (process_node env dep_opts name node_cfg cfg_dir).1 = 1) := by
  constructor
  · intro hflag
    have h1 : process_node env dep_opts name node_cfg cfg_dir
        = ((process_node_raw env dep_opts name node_cfg cfg_dir).1,
           [.errorLog e], .FailedNoRollback e) := by
      simp [process_node, hc, hf, hflag]
    rw [h1]
    exact ⟨rfl, rollbackInvocations_raw env dep_opts name node_cfg cfg_dir⟩
  · intro hflag
    have hcount :
        rollbackInvocations ((process_node_raw env dep_opts name node_cfg cfg_dir).1
          ++ (rollback env).1) = 1 := by
      have h0 := rollbackInvocations_raw env dep_opts name node_cfg cfg_dir
      have h1 := rollbackInvocations_rollback env
      simp only [rollbackInvocations, List.count_append] at h0 h1 ⊢
      omega
    rcases hrb : (rollback env).2 with re | u
    · have h1 : process_node env dep_opts name node_cfg cfg_dir
          = ((process_node_raw env dep_opts name node_cfg cfg_dir).1 ++ (rollback env).1,
             [.errorLog e, .errorLog ("Error while rolling back: \n" ++ re)],
             .FailedWithRollback e) := by
        simp [process_node, hc, hf, hflag, hrb]
      rw [h1]
      exact ⟨rfl, hcount⟩
    · have h1 : process_node env dep_opts name node_cfg cfg_dir
          = ((process_node_raw env dep_opts name node_cfg cfg_dir).1 ++ (rollback env).1,
             [.errorLog e], .FailedWithRollback e) := by
        simp [process_node, hc, hf, hflag, hrb]
      rw [h1]
      exact ⟨rfl, hcount⟩

/-- C2, witness: a forced build failure on a node with the flag off and on
a node with the flag on. -/
theorem C2_witness :
    ((process_node envBuildFail optsPlain "alpha" cfgHost1 "/cfg").2.2
        = .FailedNoRollback "Could not build config: Rebuild failed" ∧
      rollbackInvocations (process_node envBuildFail optsPlain "alpha" cfgHost1 "/cfg").1 = 0) ∧
    ((process_node envBuildFail optsPlain "alpha" cfgHost1Rollback "/cfg").2.2
        = .FailedWithRollback "Could not build config: Rebuild failed" ∧
      rollbackInvocations
        (process_node envBuildFail optsPlain "alpha" cfgHost1Rollback "/cfg").1 = 1) :=
  ⟨(C2_rollback_gating envBuildFail optsPlain "alpha" cfgHost1 "/cfg"
      "Could not build config: Rebuild failed" rfl rfl).1 rfl,
   (C2_rollback_gating envBuildFail optsPlain "alpha" cfgHost1Rollback "/cfg"
      "Could not build config: Rebuild failed" rfl rfl).2 rfl⟩

/-- C5: when the connection step fails, the node run terminates at once
with a connection-failure outcome and issues no command at all — no hash,
copy, build or rollback. -/
theorem C5_connection_failure_short_circuits (env : Env) (dep_opts : DeployOpts)
    (name : String) (node_cfg : NodeCfg) (cfg_dir : String) (e : String)
    (hc : env.connectResult = .error e) :
    (process_node env dep_opts name node_cfg cfg_dir).1 = [] ∧
    (process_node env dep_opts name node_cfg cfg_dir).2.2
      = .ConnectionFailed ("Could not connect to node with name `" ++ name ++ "`: " ++ e) := by
  simp [process_node, hc]

/-- C5, witness at a concrete refused connection. -/
theorem C5_witness :
    (process_node envConnFail optsPlain "alpha" cfgHost1 "/cfg").1 = [] ∧
    (process_node envConnFail optsPlain "alpha" cfgHost1 "/cfg").2.2
      = .ConnectionFailed ("Could not connect to node with name `" ++ "alpha" ++ "`: "
          ++ "ssh: connection refused") :=
  C5_connection_failure_short_circuits envConnFail optsPlain "alpha" cfgHost1 "/cfg"
    "ssh: connection refused" rfl

/-- C6: when rollback is attempted and itself fails, both errors are
logged — the original failure first and intact, the rollback failure as an
additional distinct record — and the terminal outcome remains
`FailedWithRollback` of the original error. -/
theorem C6_rollback_failure_reported (env : Env) (dep_opts : DeployOpts)
    (name : String) (node_cfg : NodeCfg) (cfg_dir : String) (e re : String)
    (hc : env.connectResult = .ok ())
    (hf : (process_node_raw env dep_opts name node_cfg cfg_dir).2 = .error e)
    (hflag : node_cfg.rollback_on_failure = true)
    (hr : (rollback env).2 = .error re) :
    (process_node env dep_opts name node_cfg cfg_dir).2.1
      = [.errorLog e, .errorLog ("Error while rolling back: \n" ++ re)] ∧
    (process_node env dep_opts name node_cfg cfg_dir).2.2 = .FailedWithRollback e := by
  simp [process_node, hc, hf, hflag, hr]

/-- C6, witness: a build failure followed by a failing rollback. -/
theorem C6_witness :
    (process_node envBuildAndRollbackFail optsPlain "alpha" cfgHost1Rollback "/cfg").2.1
      = [.errorLog "Could not build config: Rebuild failed",
         .errorLog ("Error while rolling back: \n"
           ++ "Could not remove new /etc/nixos, you will have to do it manually")] ∧
    (process_node envBuildAndRollbackFail optsPlain "alpha" cfgHost1Rollback "/cfg").2.2
      = .FailedWithRollback "Could not build config: Rebuild failed" :=
  C6_rollback_failure_reported envBuildAndRollbackFail optsPlain "alpha" cfgHost1Rollback
    "/cfg" "Could not build config: Rebuild failed"
    "Could not remove new /etc/nixos, you will have to do it manually" rfl rfl rfl rfl

/-- C3: for a child with both handles captured, the multiplexer emits one
log entry per line — exactly N+M entries when both streams are fully
newline-terminated with N resp. M lines — preserves each stream's order and
content exactly, returns the process's true exit status, and still emits a
trailing line without a final newline once its stream closes. -/
theorem C3_stream_draining (sch : List Bool) (o e p : List Char) (st : ExitStatus)
    (hto : terminated o = true) (hte : terminated e = true)
    (hp : p ≠ []) (hnl : '\n' ∉ p) :
    (proxy_output_to_logging sch ⟨some o, some e, .ok st⟩).1.filterMap LogEntry.outLine?
        = splitLines o ∧
    (proxy_output_to_logging sch ⟨some o, some e, .ok st⟩).1.filterMap LogEntry.errLine?
        = splitLines e ∧
    (proxy_output_to_logging sch ⟨some o, some e, .ok st⟩).1.length
        = o.count '\n' + e.count '\n' ∧
    (proxy_output_to_logging sch ⟨some o, some e, .ok st⟩).2 = .ok st ∧
    (proxy_output_to_logging sch ⟨some (o ++ p), some e, .ok st⟩).1.filterMap
        LogEntry.outLine? = splitLines o ++ [p] := by
  have hcompOut : (LogEntry.outLine? ∘ LogEntry.line) = MuxEntry.outLine? := by
    funext m; rfl
  have hcompErr : (LogEntry.errLine? ∘ LogEntry.line) = MuxEntry.errLine? := by
    funext m; rfl
  refine ⟨?_, ?_, ?_, rfl, ?_⟩
  · show ((muxLoop sch (splitLines o) (splitLines e)).map LogEntry.line).filterMap
        LogEntry.outLine? = splitLines o
    rw [List.filterMap_map, hcompOut]
    exact muxLoop_out sch _ _
  · show ((muxLoop sch (splitLines o) (splitLines e)).map LogEntry.line).filterMap
        LogEntry.errLine? = splitLines e
    rw [List.filterMap_map, hcompErr]
    exact muxLoop_err sch _ _
  · show ((muxLoop sch (splitLines o) (splitLines e)).map LogEntry.line).length
        = o.count '\n' + e.count '\n'
    rw [List.length_map, muxLoop_length, length_splitLines_of_terminated o hto,
      length_splitLines_of_terminated e hte]
  · show ((muxLoop sch (splitLines (o ++ p)) (splitLines e)).map LogEntry.line).filterMap
        LogEntry.outLine? = splitLines o ++ [p]
    rw [List.filterMap_map, hcompOut, muxLoop_out,
      splitLines_append_trailing o p hto hp hnl]

/-- C3, witness on a concrete child with one line per stream and a trailing
newline-free segment. -/
theorem C3_witness :
    (proxy_output_to_logging [false]
        ⟨some ['a', '\n'], some ['b', '\n'], .ok ⟨some 0⟩⟩).1.filterMap LogEntry.outLine?
      = splitLines ['a', '\n'] ∧
    (proxy_output_to_logging [false]
        ⟨some ['a', '\n'], some ['b', '\n'], .ok ⟨some 0⟩⟩).1.filterMap LogEntry.errLine?
      = splitLines ['b', '\n'] ∧
    (proxy_output_to_logging [false]
        ⟨some ['a', '\n'], some ['b', '\n'], .ok ⟨some 0⟩⟩).1.length
      = List.count '\n' ['a', '\n'] + List.count '\n' ['b', '\n'] ∧
    (proxy_output_to_logging [false]
        ⟨some ['a', '\n'], some ['b', '\n'], .ok ⟨some 0⟩⟩).2 = .ok ⟨some 0⟩ ∧
    (proxy_output_to_logging [false]
        ⟨some (['a', '\n'] ++ ['c']), some ['b', '\n'], .ok ⟨some 0⟩⟩).1.filterMap
        LogEntry.outLine? = splitLines ['a', '\n'] ++ [['c']] :=
  C3_stream_draining [false] ['a', '\n'] ['b', '\n'] ['c'] ⟨some 0⟩
    (by decide) (by decide) (by decide) (by decide)

/-- C4: if the target set names a node absent from the node map, the whole
run fails with an error and the per-node trace is empty — no node is
processed, so no connection, copy or build is invoked. -/
theorem C4_failfast (envs : String → Env) (nodes : List (String × NodeCfg))
    (dep_opts : DeployOpts) (cfg_dir : String) (ts : List String) (t : String)
    (hts : dep_opts.targets = some ts) (hmem : t ∈ ts)
    (hmiss : nodes.lookup t = none) :
    (run envs nodes dep_opts cfg_dir).1 = [] ∧
    ∃ m, (run envs nodes dep_opts cfg_dir).2 = .error m := by
  have hfind : (ts.find? (fun u => (nodes.lookup u).isNone)).isSome = true := by
    rw [List.find?_isSome]
    exact ⟨t, hmem, by simp [hmiss]⟩
  simp only [run, missingTarget, hts]
  rcases hf : ts.find? (fun u => (nodes.lookup u).isNone) with _ | t'
  · rw [hf] at hfind; simp at hfind
  · exact ⟨rfl, _, rfl⟩

/-- C4, witness: targeting `beta` in a map holding only `alpha`. -/
theorem C4_witness :
    (run (fun _ => envAllOk) nodesOne optsTargetBeta "/cfg").1 = [] ∧
    ∃ m, (run (fun _ => envAllOk) nodesOne optsTargetBeta "/cfg").2 = .error m :=
  C4_failfast (fun _ => envAllOk) nodesOne optsTargetBeta "/cfg" ["beta"] "beta"
    rfl (by decide) rfl

/-- C7 (code bug): the remote build command respects `boot` (`boot` versus
`switch`), but `--show-trace` is never passed to `nixos-rebuild` even when
the `show_trace` option is set, contradicting the flag's own doc comment in
`lib.rs` ("Passes `--show-trace` to `nixos-rebuild`."). -/
theorem C7_show_trace_not_passed :
    rebuildArgs { boot := false, targets := none, show_trace := true } "web"
      = ["switch", "--flake", "/etc/nixos#web"] ∧
    "--show-trace" ∉ rebuildArgs { boot := false, targets := none, show_trace := true } "web" ∧
    rebuildArgs { boot := true, targets := none, show_trace := true } "web"
      = ["boot", "--flake", "/etc/nixos#web"] := by
  refine ⟨rfl, ?_, rfl⟩
  decide

/-- C8, counterexample (claim as stated is false on the code): with the
stdout handle unavailable but the stderr handle present and holding a line,
the multiplexer logs only the warning — the available stderr stream is not
multiplexed either, contradicting "skips multiplexing for that stream
only". -/
theorem C8_counterexample :
    (proxy_output_to_logging [] ⟨none, some ['x', '\n'], .ok ⟨some 0⟩⟩).1
      = [.warning "Could not take child stdout, stdout will not be logged"] ∧
    LogEntry.line (.err ['x'])
      ∉ (proxy_output_to_logging [] ⟨none, some ['x', '\n'], .ok ⟨some 0⟩⟩).1 :=
  ⟨rfl, by decide⟩

/-- C8, amended: if either stream handle cannot be obtained, the
multiplexer degrades gracefully but skips multiplexing entirely (neither
stream is drained), logs one warning, and waits directly for process exit,
returning the exit status as a non-error result. -/
theorem C8_degraded_no_multiplexing (sch : List Bool) (child : Child) (st : ExitStatus)
    (h : child.stdoutHandle = none ∨ child.stderrHandle = none)
    (hw : child.waitResult = .ok st) :
    ((proxy_output_to_logging sch child).1
        = [.warning "Could not take child stdout, stdout will not be logged"] ∨
     (proxy_output_to_logging sch child).1
        = [.warning "Could not take child stderr, stderr will not be logged"]) ∧
    (proxy_output_to_logging sch child).2 = .ok st := by
  obtain ⟨so, se, w⟩ := child
  cases so <;> cases se <;> simp_all [proxy_output_to_logging]

/-- C8, witness: missing stdout handle with a live stderr stream. -/
theorem C8_witness :
    ((proxy_output_to_logging [] ⟨none, some ['y', '\n'], .ok ⟨some 0⟩⟩).1
        = [.warning "Could not take child stdout, stdout will not be logged"] ∨
     (proxy_output_to_logging [] ⟨none, some ['y', '\n'], .ok ⟨some 0⟩⟩).1
        = [.warning "Could not take child stderr, stderr will not be logged"]) ∧
    (proxy_output_to_logging [] ⟨none, some ['y', '\n'], .ok ⟨some 0⟩⟩).2 = .ok ⟨some 0⟩ :=
  C8_degraded_no_multiplexing [] ⟨none, some ['y', '\n'], .ok ⟨some 0⟩⟩ ⟨some 0⟩
    (Or.inl rfl) rfl

/-- C9: once target validation passes, `run` returns `Ok(())` — and the
binary exits 0 — for every assignment of per-node environments, i.e.
regardless of any node's failures; and every selected node is processed,
its recorded run depending only on its own environment. -/
theorem C9_run_isolation (envs : String → Env) (nodes : List (String × NodeCfg))
    (dep_opts : DeployOpts) (cfg_dir : String)
    (hval : missingTarget nodes dep_opts = none) :
    (run envs nodes dep_opts cfg_dir).2 = .ok () ∧
    mainExitCode (run envs nodes dep_opts cfg_dir).2 = 0 ∧
    ∀ p ∈ selectedNodes nodes dep_opts,
      (p.1, process_node (envs p.1) dep_opts p.1 p.2 cfg_dir)
        ∈ (run envs nodes dep_opts cfg_dir).1 := by
  refine ⟨?_, ?_, ?_⟩
  · simp [run, hval]
  · simp [run, hval, mainExitCode]
  · intro p hp
    simp only [run, hval]
    exact List.mem_map_of_mem _ hp

/-- C9, witness: two nodes where `alpha`'s build fails, yet the run result
is `Ok` and the exit code 0. -/
theorem C9_witness :
    (run envsMixed nodesTwo optsPlain "/cfg").2 = .ok () ∧
    mainExitCode (run envsMixed nodesTwo optsPlain "/cfg").2 = 0 :=
  ⟨(C9_run_isolation envsMixed nodesTwo optsPlain "/cfg" rfl).1,
   (C9_run_isolation envsMixed nodesTwo optsPlain "/cfg" rfl).2.1⟩

/-- C10: `copy_config` saves the previous remote configuration first — its
very first command renames `/etc/nixos` to `/etc/nixos.old` — and invokes
the rsync transfer exactly when that rename succeeded, returning an error
with no transfer attempted otherwise; `rollback` (once its `rm` of the new
config succeeds) restores exactly the saved `/etc/nixos.old` back to
`/etc/nixos`. -/
theorem C10_previous_config_preserved (env : Env) (loc dir : String) :
    ((copy_config env loc dir).1).head? = some (Cmd.mv "/etc/nixos" "/etc/nixos.old") ∧
    (mvAsideSuccess env = false →
      (copy_config env loc dir).1 = [Cmd.mv "/etc/nixos" "/etc/nixos.old"] ∧
      ∃ m, (copy_config env loc dir).2 = .error m) ∧
    (mvAsideSuccess env = true →
      (copy_config env loc dir).1 =
        [Cmd.mv "/etc/nixos" "/etc/nixos.old", Cmd.rsync (rsyncArgs dir loc)]) ∧
    (rmNewSuccess env = true →
      (rollback env).1 = [Cmd.rm "/etc/nixos", Cmd.mv "/etc/nixos.old" "/etc/nixos"]) := by
  refine ⟨?_, copy_config_of_mv_fail env loc dir,
    copy_config_trace_of_mv_success env loc dir, rollback_trace_of_rm_success env⟩
  rcases copy_config_trace env loc dir with h | h <;> rw [h] <;> rfl

/-- C10, witness: a failing rename leaves only the rename in the trace
with an error; a successful run transfers and can restore. -/
theorem C10_witness :
    ((copy_config envMvFail "host1" "/cfg").1
        = [Cmd.mv "/etc/nixos" "/etc/nixos.old"] ∧
      ∃ m, (copy_config envMvFail "host1" "/cfg").2 = .error m) ∧
    (copy_config envAllOk "host1" "/cfg").1
        = [Cmd.mv "/etc/nixos" "/etc/nixos.old", Cmd.rsync (rsyncArgs "/cfg" "host1")] ∧
    (rollback envAllOk).1 = [Cmd.rm "/etc/nixos", Cmd.mv "/etc/nixos.old" "/etc/nixos"] :=
  ⟨(C10_previous_config_preserved envMvFail "host1" "/cfg").2.1 rfl,
   (C10_previous_config_preserved envAllOk "host1" "/cfg").2.2.1 rfl,
   (C10_previous_config_preserved envAllOk "host1" "/cfg").2.2.2 rfl⟩

end Henix
